import Mathlib

/-!
Verification of the element-detection and failure-classification core of the
fiido-shop-flow-guardian repository, as a shallow embedding in Lean 4.

The embedding covers:
* `core/test_intelligence.py` — `ElementDetectionResult`, `FailureClassification`,
  `TestIntelligence.detect_element`, `TestIntelligence.classify_failure`,
  `TestIntelligence.intelligent_wait_for_element`;
* `core/selector_manager.py` — `SelectorManager._load_config`,
  `_get_default_config`, `get_selector`, `_get_fallback_selector`,
  `find_element`, `update_selector`;
* `scripts/run_product_test.py` — `TestStep`, `ProductTester.run`,
  `_run_quick_test`, `_run_full_test`.

The live browser page is modelled as an oracle (a record of response
functions): each Playwright primitive the code calls (`query_selector`,
`is_visible`, `is_enabled`, `text_content`, ...) is a field returning
`Except String α`, where `Except.error` models a raised Python exception and
`Except.ok` a normal return.  Python string methods used by the code
(`split`, `strip`, `lower`, `startswith`, the `in` operator) are embedded as
executable char-list functions below, since the corresponding Lean `String`
library functions do not reduce inside the kernel.
-/

/-! ## Python string primitives -/

/-- Python `str.strip()` on a char list: drop whitespace from both ends. -/
def pyStripList (cs : List Char) : List Char :=
  ((cs.dropWhile Char.isWhitespace).reverse.dropWhile Char.isWhitespace).reverse

/-- Python `str.strip()`. -/
def pyStrip (s : String) : String :=
  String.mk (pyStripList s.data)

/-- Auxiliary for `pySplitComma`: accumulate the current segment (reversed). -/
def pySplitCommaAux : List Char → List Char → List String
  | [], acc => [String.mk acc.reverse]
  | c :: rest, acc =>
    if c = ',' then String.mk acc.reverse :: pySplitCommaAux rest []
    else pySplitCommaAux rest (c :: acc)

/-- Python `s.split(',')`: split at every comma, keeping empty segments
(`''.split(',') == ['']`). -/
def pySplitComma (s : String) : List String :=
  pySplitCommaAux s.data []

/-- Python `str.lower()` (per-character lowering, faithful for ASCII). -/
def pyLower (s : String) : String :=
  String.mk (s.data.map Char.toLower)

/-- Is `pat` a prefix of `cs`? -/
def listIsPrefixOf : List Char → List Char → Bool
  | [], _ => true
  | _ :: _, [] => false
  | a :: as, b :: bs => a = b && listIsPrefixOf as bs

/-- Does `cs` contain `pat` as a contiguous substring? -/
def containsAux (pat : List Char) : List Char → Bool
  | [] => listIsPrefixOf pat []
  | c :: rest => listIsPrefixOf pat (c :: rest) || containsAux pat rest

/-- Python `pat in s` (substring containment). -/
def strContains (s pat : String) : Bool :=
  containsAux pat.data s.data

/-- Python `s.startswith(pre)`. -/
def pyStartsWith (s pre : String) : Bool :=
  listIsPrefixOf pre.data s.data

/-! ## core/test_intelligence.py — data model -/

/-- `ElementDetectionResult` (core/test_intelligence.py, lines 20-38).
The Playwright `ElementHandle` is modelled as an opaque numeric handle. -/
structure ElementDetectionResult where
  «exists» : Bool := false
  visible : Bool := false
  enabled : Bool := false
  element : Option Nat := none
  selector_used : Option String := none
  error : Option String := none
deriving DecidableEq

/-- `ElementDetectionResult.__bool__`: the truthiness of a result object is
its `exists` flag. -/
def ElementDetectionResult.truthy (r : ElementDetectionResult) : Bool :=
  r.«exists»

/-- `ElementDetectionResult.is_functional`. -/
def ElementDetectionResult.is_functional (r : ElementDetectionResult) : Bool :=
  r.«exists» && r.visible && r.enabled

/-- Python truthiness of an `Optional[ElementDetectionResult]`:
`bool(None)` is `False`, and `bool(result)` calls `__bool__`, i.e. `exists`. -/
def pyTruthyEDR : Option ElementDetectionResult → Bool
  | none => false
  | some r => r.truthy

/-- A value stored in an `evidence` dictionary (the Python code stores bools,
ints, strings, optional strings and lists of strings). -/
inductive EvidenceValue where
  | boolV (b : Bool)
  | natV (n : Nat)
  | strV (s : String)
  | optStrV (o : Option String)
  | listV (l : List String)
deriving DecidableEq

/-- `FailureClassification` (core/test_intelligence.py, lines 41-63). -/
structure FailureClassification where
  failure_type : String
  reason : String
  evidence : List (String × EvidenceValue)
deriving DecidableEq

def FailureClassification.TYPE_WEBSITE_BUG : String := "website_bug"
def FailureClassification.TYPE_MISSING_FEATURE : String := "missing_feature"
def FailureClassification.TYPE_TEST_TIMEOUT : String := "test_timeout"
def FailureClassification.TYPE_TEST_ERROR : String := "test_error"
def FailureClassification.TYPE_NETWORK_ERROR : String := "network_error"

/-- `FailureClassification.is_website_bug`. -/
def FailureClassification.is_website_bug (c : FailureClassification) : Bool :=
  c.failure_type == FailureClassification.TYPE_WEBSITE_BUG

/-- `FailureClassification.should_report_as_failed`. -/
def FailureClassification.should_report_as_failed (c : FailureClassification) : Bool :=
  c.failure_type == FailureClassification.TYPE_WEBSITE_BUG

/-! ## core/test_intelligence.py — element detection -/

/-- Oracle for the Playwright page primitives used by `detect_element`.
`Except.error e` models the underlying call raising an exception. -/
structure DetectPage where
  query_selector : String → Except String (Option Nat)
  is_visible : Nat → Except String Bool
  is_enabled : Nat → Except String Bool

/-- `TestIntelligence.detect_element` (core/test_intelligence.py, lines 72-122).
Iterates the selectors in order; a raised exception during one candidate's
probe is caught and the loop continues; the first selector whose
`query_selector` yields an element wins; the visibility probe defaults to
`False` on failure and the enablement probe defaults to `True`; if every
selector is exhausted the result keeps all-default fields and only `error`
is set.  The `timeout` argument is accepted and ignored, exactly as in the
source body. -/
def TestIntelligence.detect_element (page : DetectPage) (selectors : List String)
    (element_name : String) (timeout : Nat) : ElementDetectionResult :=
  match selectors with
  | [] =>
    { «exists» := false, visible := false, enabled := false, element := none,
      selector_used := none, error := some ("未找到" ++ element_name) }
  | selector :: rest =>
    match page.query_selector selector with
    | .error _ => TestIntelligence.detect_element page rest element_name timeout
    | .ok none => TestIntelligence.detect_element page rest element_name timeout
    | .ok (some element) =>
      { «exists» := true,
        visible := (match page.is_visible element with
          | .ok b => b
          | .error _ => false),
        enabled := (match page.is_enabled element with
          | .ok b => b
          | .error _ => true),
        element := some element,
        selector_used := some selector,
        error := none }

/-! ## core/test_intelligence.py — failure classification -/

/-- A raised Python exception, as observed by `classify_failure`:
`msg` is `str(exception)` and `type_name` is `type(exception).__name__`. -/
structure PyException where
  msg : String
  type_name : String
deriving DecidableEq

/-- `TestIntelligence.classify_failure` (core/test_intelligence.py,
lines 124-230).  Each branch condition is transcribed with Python truthiness:
in particular `if expected_element and not expected_element.exists` evaluates
`bool(expected_element)` through `__bool__`, which returns `exists`, so that
condition is `exists and not exists`. -/
def TestIntelligence.classify_failure (step_name : String)
    (expected_element : Option ElementDetectionResult)
    (operation_attempted : Option String)
    (js_errors : List String)
    (exception : Option PyException) : FailureClassification :=
  -- 情况1: `if expected_element and not expected_element.exists`
  if (match expected_element with
      | none => false
      | some r => r.truthy && !r.«exists») then
    { failure_type := FailureClassification.TYPE_MISSING_FEATURE,
      reason := step_name ++ "的相关UI元素不存在,该功能可能未实现",
      evidence := [("selectors_tried", .natV 0), ("element_exists", .boolV false)] }
  -- 情况2: `if expected_element and expected_element.exists and not expected_element.visible`
  else if (match expected_element with
      | none => false
      | some r => r.truthy && r.«exists» && !r.visible) then
    if !js_errors.isEmpty then
      { failure_type := FailureClassification.TYPE_WEBSITE_BUG,
        reason := step_name ++ "的UI元素存在但不可见,且有JavaScript错误",
        evidence := [("element_exists", .boolV true), ("element_visible", .boolV false),
                     ("js_errors", .listV js_errors)] }
    else
      { failure_type := FailureClassification.TYPE_MISSING_FEATURE,
        reason := step_name ++ "的UI元素存在但不可见,可能是设计如此(懒加载/隐藏)",
        evidence := [("element_exists", .boolV true), ("element_visible", .boolV false)] }
  -- 情况3: `if expected_element and expected_element.exists and expected_element.visible and js_errors`
  else if (match expected_element with
      | none => false
      | some r => r.truthy && r.«exists» && r.visible && !js_errors.isEmpty) then
    { failure_type := FailureClassification.TYPE_WEBSITE_BUG,
      reason := step_name ++ "执行失败,UI元素存在但操作触发JavaScript错误",
      evidence := [("element_exists", .boolV true), ("element_visible", .boolV true),
                   ("operation", .optStrV operation_attempted), ("js_errors", .listV js_errors)] }
  else
    match exception with
    | some e =>
      -- 情况4: timeout exception
      if strContains (pyLower e.msg) "timeout" || strContains e.type_name "Timeout" then
        { failure_type := FailureClassification.TYPE_TEST_TIMEOUT,
          reason := step_name ++ "执行超时,可能是网络慢或元素加载慢",
          evidence := [("exception", .strV e.msg), ("exception_type", .strV e.type_name)] }
      -- 情况5: network error
      else if ["net::", "connection", "network"].any (fun k => strContains (pyLower e.msg) k) then
        { failure_type := FailureClassification.TYPE_NETWORK_ERROR,
          reason := step_name ++ "遇到网络错误",
          evidence := [("exception", .strV e.msg)] }
      -- 情况6: any other exception
      else
        { failure_type := FailureClassification.TYPE_TEST_ERROR,
          reason := step_name ++ "测试逻辑出错",
          evidence := [("exception", .strV e.msg), ("exception_type", .strV e.type_name)] }
    -- 默认: 未知失败
    | none =>
      { failure_type := FailureClassification.TYPE_TEST_ERROR,
        reason := step_name ++ "失败,原因未知",
        evidence := [] }

/-! ## core/test_intelligence.py — intelligent wait -/

/-- Loop of `TestIntelligence.intelligent_wait_for_element`
(core/test_intelligence.py, lines 296-336).  The page is time-dependent, so
the oracle is indexed by the number of `detect_element` invocations made so
far: `pageAt i` is the page state seen by the `i`-th detection.  `elapsed`
mirrors the source's elapsed-milliseconds counter; the loop needs
`0 < check_interval` to terminate, exactly as the Python `while` loop does. -/
def TestIntelligence.iwGo (pageAt : Nat → DetectPage) (selectors : List String)
    (element_name : String) (max_wait_time check_interval : Nat)
    (hpos : 0 < check_interval) (elapsed i : Nat) : ElementDetectionResult :=
  if h : elapsed < max_wait_time then
    if (TestIntelligence.detect_element (pageAt i) selectors element_name check_interval).«exists» then
      TestIntelligence.detect_element (pageAt i) selectors element_name check_interval
    else
      TestIntelligence.iwGo pageAt selectors element_name max_wait_time check_interval hpos
        (elapsed + check_interval) (i + 1)
  else
    -- 超时后返回最后一次检测结果 (the post-deadline re-detection, timeout=1000)
    TestIntelligence.detect_element (pageAt i) selectors element_name 1000
termination_by max_wait_time - elapsed
decreasing_by omega

/-- `TestIntelligence.intelligent_wait_for_element` (lines 296-336): start the
poll loop with `elapsed = 0` and detection index `0`. -/
def TestIntelligence.intelligent_wait_for_element (pageAt : Nat → DetectPage)
    (selectors : List String) (element_name : String)
    (max_wait_time check_interval : Nat) (hpos : 0 < check_interval) :
    ElementDetectionResult :=
  TestIntelligence.iwGo pageAt selectors element_name max_wait_time check_interval hpos 0 0

/-- The number of in-deadline poll iterations the loop performs: the least
`n` with `n * check_interval ≥ max_wait_time` (a derived quantity used to
state properties of the loop). -/
def numPolls (max_wait_time check_interval : Nat) : Nat :=
  (max_wait_time + check_interval - 1) / check_interval

/-! ## core/selector_manager.py — data model -/

/-- A value of the selector-configuration dictionary (`Dict[str, Any]`):
top-level entries are either plain strings (`version`, `platform`) or
namespace dictionaries mapping logical keys to selector strings. -/
inductive ConfigVal where
  | str (s : String)
  | dict (m : List (String × String))
deriving DecidableEq

/-- The configuration held in `SelectorManager.selectors`: a Python dict,
modelled as an insertion-ordered association list. -/
abbrev SelectorConfig := List (String × ConfigVal)

/-- Python `d.get(key)` on an insertion-ordered dict. -/
def lookupAssoc {α : Type} : List (String × α) → String → Option α
  | [], _ => none
  | (k, v) :: rest, key => if k = key then some v else lookupAssoc rest key

/-- Python `d[key] = value` on an insertion-ordered dict: overwrite in place,
or append a new binding at the end. -/
def setAssoc {α : Type} : List (String × α) → String → α → List (String × α)
  | [], key, v => [(key, v)]
  | (k, w) :: rest, key, v =>
    if k = key then (k, v) :: rest else (k, w) :: setAssoc rest key v

/-- `SelectorManager._get_default_config` (core/selector_manager.py,
lines 55-85), transcribed verbatim. -/
def SelectorManager.get_default_config : SelectorConfig :=
  [("version", .str "1.0"),
   ("platform", .str "shopify"),
   ("base_selectors", .dict
     [("product_title", ".product-title, h1.product__title"),
      ("product_price", ".product-price, .price"),
      ("add_to_cart_button", "button[name=\x27add\x27], button:has-text(\x27Add to Cart\x27)"),
      ("cart_count", ".cart-count, .cart-item-count, [data-cart-count]"),
      ("cart_drawer", ".cart-drawer, #CartDrawer"),
      ("checkout_button", "button:has-text(\x27Checkout\x27), a[href*=\x27checkout\x27]")]),
   ("variant_selectors", .dict
     [("color", ".color-swatch, [data-option=\"Color\"] button"),
      ("size", ".size-option, [data-option=\"Size\"] button")]),
   ("checkout_selectors", .dict
     [("email", "#email, input[name=\"email\"]"),
      ("first_name", "#firstName, input[name=\"firstName\"]"),
      ("last_name", "#lastName, input[name=\"lastName\"]"),
      ("address", "#address1, input[name=\"address1\"]"),
      ("city", "#city, input[name=\"city\"]"),
      ("postal_code", "#zip, input[name=\"postalCode\"]"),
      ("country", "#country, select[name=\"countryCode\"]")])]

/-- `SelectorManager._load_config` (core/selector_manager.py, lines 32-53).
The filesystem is modelled by `fileContent` (`none` = the config file does
not exist) and JSON parsing by the `parseJson` parameter; a parse failure is
logged and re-raised by the source, i.e. propagated. -/
def SelectorManager.load_config (fileContent : Option String)
    (parseJson : String → Except String SelectorConfig) : Except String SelectorConfig :=
  match fileContent with
  | none => .ok SelectorManager.get_default_config
  | some content =>
    match parseJson content with
    | .ok config => .ok config
    | .error e => .error e

/-- The static fallback table of `SelectorManager._get_fallback_selector`
(core/selector_manager.py, lines 109-137), transcribed verbatim. -/
def SelectorManager.fallbacks : List (String × String) :=
  [("product_title", "h1, .title, [class*=\"product-title\"], [class*=\"product_title\"]"),
   ("product_price", ".price, [class*=\"price\"], [data-price]"),
   ("add_to_cart_button", "button:has-text(\"Add\"), button:has-text(\"加入\"), button[name=\"add\"]"),
   ("cart_count", "[class*=\"cart-count\"], [class*=\"cart_count\"], [data-cart-count]"),
   ("cart_drawer", "[class*=\"cart-drawer\"], [class*=\"cart_drawer\"], #cart-drawer"),
   ("checkout_button", "button:has-text(\"Checkout\"), button:has-text(\"结账\"), a[href*=\"checkout\"]"),
   ("color", "[data-option=\"Color\"] button, [data-option=\"color\"] button, .color-swatch"),
   ("size", "[data-option=\"Size\"] button, [data-option=\"size\"] button, .size-option"),
   ("email", "input[type=\"email\"], input[name*=\"email\"]"),
   ("first_name", "input[name*=\"first\"], input[name*=\"firstName\"]"),
   ("last_name", "input[name*=\"last\"], input[name*=\"lastName\"]"),
   ("address", "input[name*=\"address\"]"),
   ("city", "input[name*=\"city\"]"),
   ("postal_code", "input[name*=\"postal\"], input[name*=\"zip\"]"),
   ("country", "select[name*=\"country\"]")]

/-- `SelectorManager._get_fallback_selector`: `fallbacks.get(key, '')`. -/
def SelectorManager.get_fallback_selector (key : String) : String :=
  (lookupAssoc SelectorManager.fallbacks key).getD ""

/-- The tail of `SelectorManager.get_selector`: `if not selector and
fallback: selector = self._get_fallback_selector(key)`, then return it. -/
def SelectorManager.selWithFallback (selector key : String) (fallback : Bool) : String :=
  if (selector == "") && fallback then SelectorManager.get_fallback_selector key
  else selector

/-- `SelectorManager.get_selector` (core/selector_manager.py, lines 87-107).
`self.selectors.get(selector_type, {})` yields the namespace entry; when
that entry is a plain string (such as the default config's `version`), the
subsequent `.get(key, '')` raises `AttributeError`, modelled as
`Except.error`. -/
def SelectorManager.get_selector (selectors : SelectorConfig) (key : String)
    (selector_type : String) (fallback : Bool) : Except String String :=
  match lookupAssoc selectors selector_type with
  | some (.str _) =>
    .error "AttributeError: \x27str\x27 object has no attribute \x27get\x27"
  | some (.dict group) =>
    .ok (SelectorManager.selWithFallback ((lookupAssoc group key).getD "") key fallback)
  | none =>
    .ok (SelectorManager.selWithFallback "" key fallback)

/-- The candidate-list computation of `SelectorManager.find_element`
(core/selector_manager.py, line 152):
`[s.strip() for s in selector.split(',') if s.strip()]`. -/
def SelectorManager.split_candidates (selector : String) : List String :=
  ((pySplitComma selector).filter (fun s => pyStrip s != "")).map pyStrip

/-- Oracle for the Playwright locator probe used by `find_element`:
`page.locator(sel).first.count()`, which may raise. -/
structure LocatorPage where
  count : String → Except String Nat

/-- The candidate loop of `SelectorManager.find_element` (lines 156-169):
first candidate with at least one match wins, per-candidate errors are
caught and the loop continues, exhausted candidates yield `None`. -/
def SelectorManager.findLoop (page : LocatorPage) : List String → Option String
  | [] => none
  | sel :: rest =>
    match page.count sel with
    | .error _ => SelectorManager.findLoop page rest
    | .ok n => if n > 0 then some sel else SelectorManager.findLoop page rest

/-- `SelectorManager.find_element` (core/selector_manager.py, lines 139-169):
resolve the configured value (fallback enabled), split it into candidates
and try them in order.  The found element is represented by its winning
locator string. -/
def SelectorManager.find_element (page : LocatorPage) (selectors : SelectorConfig)
    (key : String) (selector_type : String) : Except String (Option String) :=
  match SelectorManager.get_selector selectors key selector_type true with
  | .error e => .error e
  | .ok selector => .ok (SelectorManager.findLoop page (SelectorManager.split_candidates selector))

/-- `SelectorManager.update_selector` (core/selector_manager.py,
lines 190-202).  `if selector_type not in self.selectors:` create an empty
dict for it; then `self.selectors[selector_type][key] = value`.  When the
existing entry is a plain string the item assignment raises `TypeError`,
modelled as `Except.error`. -/
def SelectorManager.update_selector (selectors : SelectorConfig) (key value : String)
    (selector_type : String) : Except String SelectorConfig :=
  match lookupAssoc selectors selector_type with
  | none => .ok (setAssoc selectors selector_type (.dict (setAssoc [] key value)))
  | some (.dict group) => .ok (setAssoc selectors selector_type (.dict (setAssoc group key value)))
  | some (.str _) => .error "TypeError: \x27str\x27 object does not support item assignment"

/-- Does `update_selector` reach the item assignment without a `TypeError`,
i.e. is the namespace entry absent or a dict? -/
def nsAssignable (selectors : SelectorConfig) (selector_type : String) : Bool :=
  match lookupAssoc selectors selector_type with
  | some (.str _) => false
  | _ => true

/-- Resolution of `(key2, type2)` after updating `(key, selector_type)`:
`update_selector` followed by `get_selector` on its result. -/
def SelectorManager.get_after_update (selectors : SelectorConfig)
    (key value selector_type key2 type2 : String) (fb : Bool) : Except String String :=
  (SelectorManager.update_selector selectors key value selector_type).bind
    (fun selectors2 => SelectorManager.get_selector selectors2 key2 type2 fb)

/-- Is an `Except` value a normal return? -/
def isOkE {ε α : Type} : Except ε α → Bool
  | .ok _ => true
  | .error _ => false

/-! ## Spec-side resolution functions (for the C6 refinement comparison) -/

/-- Modelled from the spec: auxiliary scanner for "split the value by
top-level comma" — a comma inside a quoted section or inside brackets is not
top-level.  `depth` counts open brackets, `q` is the active quote char. -/
def specTopLevelSplitAux : List Char → Nat → Option Char → List Char → List String
  | [], _, _, acc => [String.mk acc.reverse]
  | c :: rest, depth, some q, acc =>
    if c = q then specTopLevelSplitAux rest depth none (c :: acc)
    else specTopLevelSplitAux rest depth (some q) (c :: acc)
  | c :: rest, depth, none, acc =>
    if c = ',' ∧ depth = 0 then String.mk acc.reverse :: specTopLevelSplitAux rest 0 none []
    else if c = '"' ∨ c = Char.ofNat 39 then specTopLevelSplitAux rest depth (some c) (c :: acc)
    else if c = '[' ∨ c = '(' then specTopLevelSplitAux rest (depth + 1) none (c :: acc)
    else if c = ']' ∨ c = ')' then specTopLevelSplitAux rest (depth - 1) none (c :: acc)
    else specTopLevelSplitAux rest depth none (c :: acc)

/-- Modelled from the spec: "split the value by top-level comma into a list
of trimmed, non-empty candidate strings, preserving order". -/
def spec_top_level_candidates (value : String) : List String :=
  ((specTopLevelSplitAux value.data 0 none []).filter (fun s => pyStrip s != "")).map pyStrip

/-- The spec's resolution sentence with "every comma" in place of
"top-level comma": split at every comma, trim each segment, drop empty
segments, preserve order (the amended C6). -/
def spec_every_comma_candidates (value : String) : List String :=
  ((pySplitComma value).map pyStrip).filter (fun s => s != "")

/-! ## scripts/run_product_test.py — test step records and the orchestrator

`TestStep` carries status, message and error; the two wall-clock timestamps
are outside the embedding (no real time), so duration is not modelled.  The
quick-test page interactions are modelled by the `TestEnv` oracle: one field
per Playwright primitive the script calls, each returning `Except String α`
(`Except.error` = the call raised).  `page.wait_for_timeout` sleeps are pure
no-ops. -/

/-- The observable fields of a `TestStep` record
(scripts/run_product_test.py, lines 35-89). -/
structure TestStepRec where
  number : Nat
  name : String
  description : String
  status : String
  message : String
  error : Option String
deriving DecidableEq

/-- `TestStep.__init__`: a fresh step starts `pending` with empty message. -/
def TestStep.mk0 (number : Nat) (name description : String) : TestStepRec :=
  { number := number, name := name, description := description,
    status := "pending", message := "", error := none }

/-- `TestStep.complete(status, message, error)` (lines 55-73). -/
def TestStepRec.complete (s : TestStepRec) (status message : String)
    (error : Option String) : TestStepRec :=
  { s with status := status, message := message, error := error }

/-- The slice of the `Selectors` pydantic model (core/models.py, lines 42-78)
used by the quick test. -/
structure Selectors where
  product_title : String
  product_price : String
  add_to_cart_button : String
deriving DecidableEq

/-- The slice of the `Product` pydantic model (core/models.py, lines 81-139)
used by `ProductTester`. -/
structure Product where
  id : String
  name : String
  url : String
  selectors : Selectors
deriving DecidableEq

/-- Oracle for the browser interactions performed by `ProductTester`:
`init_browser` for `_init_browser`, `navigate`/`page_url` for the step-1
navigation, `goto`/`current_url` for the step-5 cart navigation, and the
per-handle Playwright primitives. -/
structure TestEnv where
  init_browser : Except String Unit
  navigate : Except String Unit
  page_url : String
  query_selector : String → Except String (Option Nat)
  query_selector_all : String → Except String (List Nat)
  is_visible : Nat → Except String Bool
  is_enabled : Nat → Except String Bool
  text_content : Nat → Except String (Option String)
  get_attribute : Nat → String → Except String (Option String)
  click : Nat → Except String Unit
  goto : String → Except String Unit
  current_url : String

/-- `_init_quick_test_steps` (scripts/run_product_test.py, lines 106-114). -/
def ProductTester.quick_pending : List TestStepRec :=
  [TestStep.mk0 1 "页面访问" "访问商品页面并检查页面是否正常加载",
   TestStep.mk0 2 "商品信息显示" "验证商品标题、价格等核心信息是否正确显示",
   TestStep.mk0 3 "添加购物车" "点击添加购物车按钮，验证能否成功加入",
   TestStep.mk0 4 "购物车验证" "检查购物车中是否有新增商品",
   TestStep.mk0 5 "支付流程" "访问购物车页面，验证Checkout按钮是否可用"]

/-- `_init_full_test_steps` (scripts/run_product_test.py, lines 116-131). -/
def ProductTester.full_pending : List TestStepRec :=
  [TestStep.mk0 1 "页面访问" "访问商品页面并等待完全加载",
   TestStep.mk0 2 "页面结构检测" "检查页面基础DOM结构是否完整",
   TestStep.mk0 3 "商品标题验证" "验证商品标题显示是否正确",
   TestStep.mk0 4 "价格信息验证" "检查商品价格显示是否完整",
   TestStep.mk0 5 "商品图片验证" "验证商品图片是否加载成功",
   TestStep.mk0 6 "商品描述验证" "检查商品描述内容是否存在",
   TestStep.mk0 7 "变体选择测试" "测试颜色/尺寸等变体选项功能",
   TestStep.mk0 8 "数量选择测试" "测试商品数量增减功能",
   TestStep.mk0 9 "添加购物车" "测试添加购物车功能",
   TestStep.mk0 10 "购物车验证" "验证购物车商品数量变化",
   TestStep.mk0 11 "相关推荐验证" "检查相关商品推荐是否显示",
   TestStep.mk0 12 "支付流程验证" "验证从购物车到支付页面的完整流程"]

/-- Quick-test step 2, title loop (lines 239-257): per-selector `try` —
any raised probe error falls through to the next selector; a found, visible
element with non-empty stripped text sets `title_visible` and breaks. -/
def titleLoop (env : TestEnv) : List String → Bool
  | [] => false
  | sel :: rest =>
    match env.query_selector sel with
    | .error _ => titleLoop env rest
    | .ok none => titleLoop env rest
    | .ok (some el) =>
      match env.is_visible el with
      | .error _ => titleLoop env rest
      | .ok false => titleLoop env rest
      | .ok true =>
        match env.text_content el with
        | .error _ => titleLoop env rest
        | .ok none => titleLoop env rest
        | .ok (some t) => if t != "" && pyStrip t != "" then true else titleLoop env rest

/-- Quick-test step 2, inner loop over the elements matched by one price
selector (lines 288-294); a raised probe error aborts this selector's scan
(`Except.error`, caught by the per-selector handler). -/
def priceInnerLoop (env : TestEnv) : List Nat → Except String (Option String)
  | [] => .ok none
  | el :: rest =>
    match env.is_visible el with
    | .error e => .error e
    | .ok false => priceInnerLoop env rest
    | .ok true =>
      match env.text_content el with
      | .error e => .error e
      | .ok none => priceInnerLoop env rest
      | .ok (some t) =>
        if t != "" && pyStrip t != "" then .ok (some (pyStrip t))
        else priceInnerLoop env rest

/-- Quick-test step 2, price loop (lines 271-300): `meta` selectors read the
`content` attribute, other selectors scan all matches for a visible one with
non-empty text; per-selector errors are caught and the loop continues.
Returns the found `price_text`. -/
def priceLoop (env : TestEnv) : List String → Option String
  | [] => none
  | sel :: rest =>
    if pyStartsWith sel "meta" then
      match env.query_selector sel with
      | .error _ => priceLoop env rest
      | .ok none => priceLoop env rest
      | .ok (some meta) =>
        match env.get_attribute meta "content" with
        | .error _ => priceLoop env rest
        | .ok none => priceLoop env rest
        | .ok (some content) =>
          if content != "" then some ("$" ++ content) else priceLoop env rest
    else
      match env.query_selector_all sel with
      | .error _ => priceLoop env rest
      | .ok prices =>
        match priceInnerLoop env prices with
        | .error _ => priceLoop env rest
        | .ok none => priceLoop env rest
        | .ok (some t) => some t

/-- Quick-test step 2 (lines 230-311): 商品信息显示.  All probe errors are
absorbed by the per-selector handlers, so the step completes `passed` unless
neither a title nor a price was detected, in which case it completes
`failed` — without raising. -/
def ProductTester.quick_step2 (env : TestEnv) (product : Product)
    (step : TestStepRec) : TestStepRec :=
  let title_selectors := [product.selectors.product_title, "h1.product__title", "h1",
                          ".product-title", "[data-product-title]"]
  let price_selectors := [".price--highlight", ".sale-price", ".sales-price",
                          ".price-box .price", ".product-form__price-info .price",
                          "meta[property=\x27product:price:amount\x27]", ".money", "[data-price]"]
  let title_visible := titleLoop env title_selectors
  match priceLoop env price_selectors with
  | some price_text =>
    if title_visible then
      step.complete "passed" ("商品标题和价格均正常显示 (价格: " ++ price_text ++ ")") none
    else
      step.complete "passed" ("商品价格显示正常 (价格: " ++ price_text ++ ")，但未检测到标题") none
  | none =>
    if title_visible then
      step.complete "passed" "商品标题显示正常，但未检测到价格" none
    else
      step.complete "failed" "商品信息显示不完整" none

/-- Quick-test step 3 (lines 313-336): 添加购物车.  A raised probe/click
error is caught by the step's handler and completes the step `failed` with
the error recorded; a missing or invisible button completes `failed`
without an error value; a visible disabled button completes `passed`. -/
def ProductTester.quick_step3 (env : TestEnv) (product : Product)
    (step : TestStepRec) : TestStepRec :=
  match env.query_selector product.selectors.add_to_cart_button with
  | .error e => step.complete "failed" "添加购物车操作失败" (some e)
  | .ok none =>
    step.complete "failed"
      ("未找到加购按钮 (selector: " ++ product.selectors.add_to_cart_button ++ ")") none
  | .ok (some button) =>
    match env.is_visible button with
    | .error e => step.complete "failed" "添加购物车操作失败" (some e)
    | .ok is_vis =>
      match env.is_enabled button with
      | .error e => step.complete "failed" "添加购物车操作失败" (some e)
      | .ok is_en =>
        if is_vis && is_en then
          match env.click button with
          | .error e => step.complete "failed" "添加购物车操作失败" (some e)
          | .ok _ => step.complete "passed" "成功点击添加购物车按钮" none
        else if is_vis then
          step.complete "passed" "加购按钮可见但已禁用（可能需要选择变体）" none
        else
          step.complete "failed" "加购按钮不可见" none

/-- Quick-test step 4, badge loop (lines 343-358): no per-selector `try`
here — a raised probe error propagates to the step handler
(`Except.error`); a badge whose text is truthy and strips to something
other than `"0"` wins. -/
def cartLoop (env : TestEnv) : List String → Except String (Option String)
  | [] => .ok none
  | sel :: rest =>
    match env.query_selector sel with
    | .error e => .error e
    | .ok none => cartLoop env rest
    | .ok (some badge) =>
      match env.text_content badge with
      | .error e => .error e
      | .ok none => cartLoop env rest
      | .ok (some t) =>
        if t != "" && pyStrip t != "0" then .ok (some (pyStrip t))
        else cartLoop env rest

/-- Quick-test step 4 (lines 338-363): 购物车验证.  Completes `passed`
whether or not a badge updated; only a raised probe error completes it
`failed`. -/
def ProductTester.quick_step4 (env : TestEnv) (step : TestStepRec) : TestStepRec :=
  match cartLoop env [".cart-count", ".cart-quantity", "[data-cart-count]", ".header__cart-count"] with
  | .error e => step.complete "failed" "检查购物车时出错" (some e)
  | .ok (some count) => step.complete "passed" ("购物车已更新，数量: " ++ count) none
  | .ok none => step.complete "passed" "未检测到购物车数量变化（可能需要刷新或查看购物车页面）" none

/-- Quick-test step 5, checkout-button loop (lines 393-412).  The running
`checkout_button` variable is threaded through: a per-selector error leaves
it at its previous value (the source's `except: continue` does not reset
it); a `None` query result or an invisible button resets it to `None`; a
visible button breaks the loop. -/
def checkoutLoop (env : TestEnv) : List String → Option Nat → Option Nat
  | [], acc => acc
  | sel :: rest, acc =>
    match env.query_selector sel with
    | .error _ => checkoutLoop env rest acc
    | .ok none => checkoutLoop env rest none
    | .ok (some button) =>
      match env.is_visible button with
      | .error _ => checkoutLoop env rest (some button)
      | .ok is_vis =>
        match env.is_enabled button with
        | .error _ => checkoutLoop env rest (some button)
        | .ok _ =>
          if is_vis then some button
          else checkoutLoop env rest none

/-- Quick-test step 5, empty-cart probe (lines 418-429): not wrapped in a
per-selector `try`, so a raised error propagates to the step handler. -/
def emptyCartLoop (env : TestEnv) : List String → Except String Bool
  | [] => .ok false
  | sel :: rest =>
    match env.query_selector sel with
    | .error e => .error e
    | .ok (some _) => .ok true
    | .ok none => emptyCartLoop env rest

/-- Quick-test step 5 (lines 365-440): 支付流程.  Navigate to the cart page,
check the URL, look for a checkout button, otherwise probe for an empty
cart; every outcome except a raised error or a wrong URL is `passed`. -/
def ProductTester.quick_step5 (env : TestEnv) (step : TestStepRec) : TestStepRec :=
  match env.goto "https://fiido.com/cart" with
  | .error e => step.complete "failed" "验证支付流程时出错" (some e)
  | .ok _ =>
    if strContains env.current_url "/cart" then
      match checkoutLoop env
          ["button[name=\x27checkout\x27]", "[name=\x27checkout\x27]",
           "button:has-text(\x27Check out\x27)", "button:has-text(\x27Checkout\x27)",
           "a[href*=\x27/checkout\x27]", "form[action*=\x27checkout\x27] button", "#checkout"]
          none with
      | some _ => step.complete "passed" "购物车页面正常，Checkout按钮可见可点击" none
      | none =>
        match emptyCartLoop env
            ["text=\x27Your cart is empty\x27", "text=\x27购物车为空\x27",
             ".cart-empty", ".empty-cart"] with
        | .error e => step.complete "failed" "验证支付流程时出错" (some e)
        | .ok true => step.complete "passed" "购物车页面正常，但购物车为空（商品可能未成功加入）" none
        | .ok false => step.complete "passed" "成功进入购物车页面，但未找到Checkout按钮" none
    else
      step.complete "failed" ("未能进入购物车页面，当前URL: " ++ env.current_url) none

/-- `_run_quick_test` (lines 214-440): step 1 re-raises its exception
(returned as `some e`), aborting the remaining steps at `pending`; steps
2-5 catch all their errors and never raise. -/
def ProductTester.run_quick_test (env : TestEnv) (product : Product) :
    List TestStepRec × Option String :=
  match ProductTester.quick_pending with
  | s1p :: rest =>
    (match env.navigate with
     | .error e => (s1p.complete "failed" "页面访问失败" (some e) :: rest, some e)
     | .ok _ =>
       (match rest with
        | [s2p, s3p, s4p, s5p] =>
          ([s1p.complete "passed" ("成功访问页面: " ++ env.page_url) none,
            ProductTester.quick_step2 env product s2p,
            ProductTester.quick_step3 env product s3p,
            ProductTester.quick_step4 env s4p,
            ProductTester.quick_step5 env s5p], none)
        | _ => (rest, none)))
  | [] => ([], none)

/-- Full-test step 2 (lines 456-469): 页面结构检测 — completes `passed`
whether or not the structure is complete; only a raised query error
completes it `failed`. -/
def ProductTester.full_step2 (env : TestEnv) (step : TestStepRec) : TestStepRec :=
  match env.query_selector "body" with
  | .error e => step.complete "failed" "检测页面结构时出错" (some e)
  | .ok body =>
    match env.query_selector "header, .header" with
    | .error e => step.complete "failed" "检测页面结构时出错" (some e)
    | .ok header =>
      match env.query_selector "main, .main-content" with
      | .error e => step.complete "failed" "检测页面结构时出错" (some e)
      | .ok mainEl =>
        if body.isSome && header.isSome && mainEl.isSome then
          step.complete "passed" "页面基础结构完整（body, header, main均存在）" none
        else
          step.complete "passed" "页面已加载，但结构不完整" none

/-- `_run_full_test` (lines 442-478): step 1 re-raises on failure; step 2
catches its errors; steps 3-12 are simulated and always complete `passed`
with `f"步骤 {step.name} 执行完成"`. -/
def ProductTester.run_full_test (env : TestEnv) : List TestStepRec × Option String :=
  match ProductTester.full_pending with
  | s1p :: rest =>
    (match env.navigate with
     | .error e => (s1p.complete "failed" "页面访问失败" (some e) :: rest, some e)
     | .ok _ =>
       (match rest with
        | s2p :: others =>
          (s1p.complete "passed" ("页面加载完成: " ++ env.page_url) none ::
           ProductTester.full_step2 env s2p ::
           others.map (fun s => s.complete "passed" ("步骤 " ++ s.name ++ " 执行完成") none), none)
        | [] => ([], none)))
  | [] => ([], none)

/-- The quick/full mode flag of `ProductTester`. -/
inductive TestMode where
  | quick
  | full
deriving DecidableEq

/-- The aggregate dictionary built by `ProductTester.run`
(lines 152-196): `status`, `steps`, `errors` (duration and timestamp are
wall-clock and not modelled). -/
structure RunResult where
  product_id : String
  product_name : String
  test_mode : String
  status : String
  steps : List TestStepRec
  errors : List String
deriving DecidableEq

/-- `ProductTester.run` (scripts/run_product_test.py, lines 133-196).
`result["status"]` starts `"passed"`; the `try` block runs `_init_browser`
and the selected test; any exception escaping it sets `status = "failed"`
and appends the exception to `errors`; cleanup always runs; the step records
are serialized afterwards.  Note the step statuses are counted only for
logging — they do not feed back into `result["status"]`. -/
def ProductTester.run (env : TestEnv) (product : Product) (test_mode : TestMode) : RunResult :=
  let mode_str := match test_mode with | .quick => "quick" | .full => "full"
  match env.init_browser with
  | .error e =>
    { product_id := product.id, product_name := product.name, test_mode := mode_str,
      status := "failed",
      steps := (match test_mode with
        | .quick => ProductTester.quick_pending
        | .full => ProductTester.full_pending),
      errors := [e] }
  | .ok _ =>
    match (match test_mode with
      | .quick => ProductTester.run_quick_test env product
      | .full => ProductTester.run_full_test env) with
    | (steps, some e) =>
      { product_id := product.id, product_name := product.name, test_mode := mode_str,
        status := "failed", steps := steps, errors := [e] }
    | (steps, none) =>
      { product_id := product.id, product_name := product.name, test_mode := mode_str,
        status := "passed", steps := steps, errors := [] }

/-! ## Concrete inputs for witnesses and counterexamples -/

/-- A page on which every selector query returns no element. -/
def emptyPage : DetectPage :=
  { query_selector := fun _ => .ok none,
    is_visible := fun _ => .ok false,
    is_enabled := fun _ => .ok false }

/-- A page on which every selector query immediately finds a visible,
enabled element. -/
def hitPage : DetectPage :=
  { query_selector := fun _ => .ok (some 1),
    is_visible := fun _ => .ok true,
    is_enabled := fun _ => .ok true }

/-- A time-indexed page that always behaves like `hitPage`. -/
def pageAtHit : Nat → DetectPage := fun _ => hitPage

/-- A locator page on which every candidate matches zero elements. -/
def zeroLocatorPage : LocatorPage :=
  { count := fun _ => .ok 0 }

/-- A detection result for an element that does not exist (the detector's
no-match shape), used as the C3 failing input. -/
def c3_failing_element : ElementDetectionResult :=
  { «exists» := false, visible := false, enabled := false, element := none,
    selector_used := none, error := some "未找到加购按钮" }

/-- A configuration whose configured value for `qty_input` contains a comma
inside a quoted attribute value (C6 counterexample). -/
def c6Cfg : SelectorConfig :=
  [("base_selectors", .dict [("qty_input", "input[name=\"a,b\"]")])]

/-- The product record driving the C1 counterexample run (selector values
are the `Selectors` model defaults from core/models.py). -/
def cexProduct : Product :=
  { id := "fiido_d11", name := "FIIDO D11",
    url := "https://fiido.com/products/fiido-d11",
    selectors := { product_title := ".product-title, h1.product__title",
                   product_price := ".product-price, .price",
                   add_to_cart_button := "button[name=\x27add\x27], button:has-text(\x27Add to Cart\x27)" } }

/-- The page behaviour driving the C1 counterexample run: browser start and
both navigations succeed, the cart page exposes a visible enabled checkout
button, and every other element probe finds nothing — so step 2 (no title,
no price) and step 3 (no add-to-cart button) complete `failed` without
raising, while steps 1, 4 and 5 complete `passed`. -/
def cexEnv : TestEnv :=
  { init_browser := .ok (),
    navigate := .ok (),
    page_url := "https://fiido.com/products/fiido-d11",
    query_selector := fun sel =>
      if sel = "button[name=\x27checkout\x27]" then .ok (some 1) else .ok none,
    query_selector_all := fun _ => .ok [],
    is_visible := fun _ => .ok true,
    is_enabled := fun _ => .ok true,
    text_content := fun _ => .ok (some "Checkout"),
    get_attribute := fun _ _ => .ok none,
    click := fun _ => .ok (),
    goto := fun _ => .ok (),
    current_url := "https://fiido.com/cart" }

/-! ## Helper lemmas -/

theorem listIsPrefixOf_refl (l : List Char) : listIsPrefixOf l l = true := by
  induction l with
  | nil => rfl
  | cons c cs ih => simp [listIsPrefixOf, ih]

theorem containsAux_append (pat pre : List Char) :
    containsAux pat (pre ++ pat) = true := by
  induction pre with
  | nil =>
    cases pat with
    | nil => rfl
    | cons c cs => simp [containsAux, listIsPrefixOf_refl]
  | cons c cs ih => simp [containsAux, ih]

theorem strContains_append_label (a b : String) : strContains (a ++ b) b = true := by
  unfold strContains
  rw [String.data_append]
  exact containsAux_append b.data a.data

theorem lookupAssoc_setAssoc_self {α : Type} (l : List (String × α)) (k : String) (v : α) :
    lookupAssoc (setAssoc l k v) k = some v := by
  induction l with
  | nil => simp [setAssoc, lookupAssoc]
  | cons p rest ih =>
    obtain ⟨k1, v1⟩ := p
    by_cases h : k1 = k
    · simp [setAssoc, lookupAssoc, h]
    · simp [setAssoc, lookupAssoc, h, ih]

theorem lookupAssoc_setAssoc_ne {α : Type} (l : List (String × α)) (k k2 : String) (v : α)
    (h : k2 ≠ k) : lookupAssoc (setAssoc l k v) k2 = lookupAssoc l k2 := by
  have h2 : ¬ (k = k2) := fun hh => h hh.symm
  induction l with
  | nil => simp [setAssoc, lookupAssoc, h2]
  | cons p rest ih =>
    obtain ⟨k1, v1⟩ := p
    by_cases h1 : k1 = k
    · subst h1
      simp [setAssoc, lookupAssoc, h2]
    · simp [setAssoc, lookupAssoc, h1, ih]

/-! ## Claims C2, C3 -/

/-- Claim C2: for every `FailureClassification`, `should_report_as_failed()`
returns true if and only if its kind is `website_bug`; a classification
whose kind is any of the other four never satisfies it. -/
theorem claim_C2 (c : FailureClassification) :
    (c.should_report_as_failed = true ↔ c.failure_type = FailureClassification.TYPE_WEBSITE_BUG) ∧
    ((c.failure_type = FailureClassification.TYPE_MISSING_FEATURE ∨
      c.failure_type = FailureClassification.TYPE_TEST_TIMEOUT ∨
      c.failure_type = FailureClassification.TYPE_NETWORK_ERROR ∨
      c.failure_type = FailureClassification.TYPE_TEST_ERROR) →
      c.should_report_as_failed = false) := by
  constructor
  · simp [FailureClassification.should_report_as_failed]
  · intro h
    rcases h with h | h | h | h <;>
      simp [FailureClassification.should_report_as_failed, h,
        FailureClassification.TYPE_MISSING_FEATURE, FailureClassification.TYPE_TEST_TIMEOUT,
        FailureClassification.TYPE_NETWORK_ERROR, FailureClassification.TYPE_TEST_ERROR,
        FailureClassification.TYPE_WEBSITE_BUG]

/-- Witness for C2 at a concrete classification of kind `missing_feature`. -/
theorem claim_C2_witness :
    FailureClassification.should_report_as_failed
      { failure_type := "missing_feature", reason := "r", evidence := [] } = false :=
  (claim_C2 { failure_type := "missing_feature", reason := "r", evidence := [] }).2
    (Or.inl rfl)

/-- Claim C3 (code bug): with a detection result present whose `exists` is
false and no exception or script errors, the classifier returns
`test_error` ("原因未知"), not `missing_feature`.  The source's rule-1 guard
`if expected_element and not expected_element.exists` evaluates
`bool(expected_element)` through `__bool__ = exists`, so it can never hold,
contradicting the rule's own comment (情况1: 元素不存在 → 功能不存在). -/
theorem claim_C3_eval :
    (TestIntelligence.classify_failure "添加购物车" (some c3_failing_element) none [] none).failure_type
      = FailureClassification.TYPE_TEST_ERROR ∧
    (TestIntelligence.classify_failure "添加购物车" (some c3_failing_element) none [] none).failure_type
      ≠ FailureClassification.TYPE_MISSING_FEATURE := by
  constructor
  · rfl
  · decide

/-! ## Claims C4, C10, C5 -/

/-- Claim C4: every result produced by the detector satisfies
`exists = false → visible = false ∧ enabled = false`. -/
theorem claim_C4 (page : DetectPage) (selectors : List String)
    (element_name : String) (timeout : Nat)
    (h : (TestIntelligence.detect_element page selectors element_name timeout).«exists» = false) :
    (TestIntelligence.detect_element page selectors element_name timeout).visible = false ∧
    (TestIntelligence.detect_element page selectors element_name timeout).enabled = false := by
  induction selectors with
  | nil => exact ⟨rfl, rfl⟩
  | cons sel rest ih =>
    simp only [TestIntelligence.detect_element] at h ⊢
    cases hq : page.query_selector sel with
    | error e => rw [hq] at h; exact ih h
    | ok v =>
      cases v with
      | none => rw [hq] at h; exact ih h
      | some el => rw [hq] at h; simp at h

/-- Witness for C4: the empty page yields `exists = false`. -/
theorem claim_C4_witness :
    (TestIntelligence.detect_element emptyPage ["#a"] "标题" 5000).visible = false ∧
    (TestIntelligence.detect_element emptyPage ["#a"] "标题" 5000).enabled = false :=
  claim_C4 emptyPage ["#a"] "标题" 5000 rfl

/-- Claim C10: for every result returned by the detector, the matched
locator `selector_used` is non-`None` exactly when `exists` is true, and
the `__bool__` truthiness of the result equals its `exists` flag. -/
theorem claim_C10 (page : DetectPage) (selectors : List String)
    (element_name : String) (timeout : Nat) :
    ((TestIntelligence.detect_element page selectors element_name timeout).selector_used.isSome
      = (TestIntelligence.detect_element page selectors element_name timeout).«exists») ∧
    ((TestIntelligence.detect_element page selectors element_name timeout).truthy
      = (TestIntelligence.detect_element page selectors element_name timeout).«exists») := by
  refine ⟨?_, rfl⟩
  induction selectors with
  | nil => rfl
  | cons sel rest ih =>
    simp only [TestIntelligence.detect_element]
    cases hq : page.query_selector sel with
    | error e => exact ih
    | ok v =>
      cases v with
      | none => exact ih
      | some el => rfl

/-- Counterexample for C5 as stated: with two exhausted candidates the
returned error message is `未找到目标`, which references the label but does
not reference the candidate count 2. -/
theorem claim_C5_counterexample :
    (TestIntelligence.detect_element emptyPage ["#a", "#b"] "目标" 5000).«exists» = false ∧
    (TestIntelligence.detect_element emptyPage ["#a", "#b"] "目标" 5000).error = some "未找到目标" ∧
    strContains "未找到目标" (toString (2 : Nat)) = false := by
  exact ⟨rfl, rfl, by decide⟩

/-- Claim C5 (amended): whenever every candidate is exhausted without a
match — in particular for an empty candidate list — the detector returns
(never raises) a result with `exists = false` and `error` populated with
the not-found message `"未找到" ++ label`, which references the label; the
candidate count appears only in the log line, not in the result. -/
theorem claim_C5_amended (page : DetectPage) (selectors : List String)
    (element_name : String) (timeout : Nat)
    (h : ∀ sel, sel ∈ selectors →
      page.query_selector sel = .ok none ∨ ∃ e, page.query_selector sel = .error e) :
    (TestIntelligence.detect_element page selectors element_name timeout).«exists» = false ∧
    (TestIntelligence.detect_element page selectors element_name timeout).error
      = some ("未找到" ++ element_name) ∧
    strContains ("未找到" ++ element_name) element_name = true := by
  refine ⟨?_, ?_, strContains_append_label "未找到" element_name⟩ <;>
  · induction selectors with
    | nil => rfl
    | cons sel rest ih =>
      simp only [TestIntelligence.detect_element]
      rcases h sel (List.mem_cons_self sel rest) with hq | ⟨e, hq⟩ <;>
        rw [hq] <;> exact ih (fun s hs => h s (List.mem_cons_of_mem sel hs))

/-- Witness for C5 (amended) at the empty page with one candidate. -/
theorem claim_C5_witness :
    (TestIntelligence.detect_element emptyPage ["#a"] "按钮" 5000).«exists» = false ∧
    (TestIntelligence.detect_element emptyPage ["#a"] "按钮" 5000).error = some "未找到按钮" ∧
    strContains "未找到按钮" "按钮" = true :=
  claim_C5_amended emptyPage ["#a"] "按钮" 5000 (fun _ _ => Or.inl rfl)

/-! ## Claim C6 -/

/-- Counterexample for C6 as stated: for the configured value
`input[name="a,b"]` the code splits at the quoted comma as well, yielding
two candidates, while a top-level-comma split yields the single original
candidate. -/
theorem claim_C6_counterexample :
    SelectorManager.get_selector c6Cfg "qty_input" "base_selectors" true
      = .ok "input[name=\"a,b\"]" ∧
    SelectorManager.split_candidates "input[name=\"a,b\"]"
      = ["input[name=\"a", "b\"]"] ∧
    spec_top_level_candidates "input[name=\"a,b\"]" = ["input[name=\"a,b\"]"] ∧
    SelectorManager.split_candidates "input[name=\"a,b\"]"
      ≠ spec_top_level_candidates "input[name=\"a,b\"]" := by
  refine ⟨rfl, by decide, by decide, by decide⟩

/-- Claim C6 (amended): for every known key, resolution returns the
candidates obtained by splitting the configured value at **every** comma
(including commas nested in quotes or brackets), each trimmed, empty
segments dropped, order preserved. -/
theorem claim_C6_amended (page : LocatorPage) (selectors : SelectorConfig)
    (key selector_type value : String)
    (h : SelectorManager.get_selector selectors key selector_type true = .ok value) :
    SelectorManager.split_candidates value = spec_every_comma_candidates value ∧
    SelectorManager.find_element page selectors key selector_type
      = .ok (SelectorManager.findLoop page (spec_every_comma_candidates value)) := by
  have hsplit : SelectorManager.split_candidates value = spec_every_comma_candidates value := by
    unfold SelectorManager.split_candidates spec_every_comma_candidates
    rw [List.filter_map]
    rfl
  refine ⟨hsplit, ?_⟩
  unfold SelectorManager.find_element
  rw [h, ← hsplit]

/-- Witness for C6 (amended) at the default configuration's
`product_title` key. -/
theorem claim_C6_witness :
    SelectorManager.split_candidates ".product-title, h1.product__title"
      = spec_every_comma_candidates ".product-title, h1.product__title" ∧
    SelectorManager.find_element zeroLocatorPage SelectorManager.get_default_config
        "product_title" "base_selectors"
      = .ok (SelectorManager.findLoop zeroLocatorPage
          (spec_every_comma_candidates ".product-title, h1.product__title")) :=
  claim_C6_amended zeroLocatorPage SelectorManager.get_default_config
    "product_title" "base_selectors" ".product-title, h1.product__title" rfl

/-! ## Claim C8 -/

/-- Claim C8: at construction, an absent configuration resource yields the
hard-coded default configuration, while a resource whose content fails to
parse propagates the parse error and never degrades to the defaults. -/
theorem claim_C8 (fileContent : Option String)
    (parseJson : String → Except String SelectorConfig) :
    (fileContent = none →
      SelectorManager.load_config fileContent parseJson
        = .ok SelectorManager.get_default_config) ∧
    (∀ content e, fileContent = some content → parseJson content = .error e →
      SelectorManager.load_config fileContent parseJson = .error e) := by
  constructor
  · intro h
    rw [h]
    rfl
  · intro content e hc hp
    subst hc
    simp only [SelectorManager.load_config]
    rw [hp]

/-- Witness for C8: absent file gives the defaults; a failing parse
propagates its error. -/
theorem claim_C8_witness :
    SelectorManager.load_config none (fun _ => .error "Expecting value")
      = .ok SelectorManager.get_default_config ∧
    SelectorManager.load_config (some "not json") (fun _ => .error "Expecting value")
      = .error "Expecting value" :=
  ⟨(claim_C8 none (fun _ => .error "Expecting value")).1 rfl,
   (claim_C8 (some "not json") (fun _ => .error "Expecting value")).2
     "not json" "Expecting value" rfl rfl⟩

/-! ## Claim C9 -/

/-- Counterexample for C9 as stated: `update_selector` does not always
return normally — with the default configuration and namespace `version`
(whose entry is the plain string `"1.0"`), the item assignment raises
`TypeError`. -/
theorem claim_C9_counterexample :
    SelectorManager.update_selector SelectorManager.get_default_config
        "product_title" "h1" "version"
      = .error "TypeError: \x27str\x27 object does not support item assignment" := rfl

/-- Claim C9 (amended): for every key, value, and namespace whose entry is
absent or a mapping (which is every `*_selectors` namespace; only the
string-valued entries such as `version` are excluded), `update_selector`
returns normally, creating the namespace mapping if it was absent; a
subsequent `get_selector` with fallback disabled returns exactly the new
value; and the resolution of every other (key, namespace) pair is
unchanged. -/
theorem claim_C9_amended (selectors : SelectorConfig) (key value selector_type : String)
    (h : nsAssignable selectors selector_type = true) :
    isOkE (SelectorManager.update_selector selectors key value selector_type) = true ∧
    SelectorManager.get_after_update selectors key value selector_type key selector_type false
      = .ok value ∧
    (∀ key2 type2 fb, (key2, type2) ≠ (key, selector_type) →
      SelectorManager.get_after_update selectors key value selector_type key2 type2 fb
        = SelectorManager.get_selector selectors key2 type2 fb) := by
  unfold nsAssignable at h
  unfold SelectorManager.get_after_update SelectorManager.update_selector
  cases hl : lookupAssoc selectors selector_type with
  | none =>
    refine ⟨rfl, ?_, ?_⟩
    · show SelectorManager.get_selector
        (setAssoc selectors selector_type (.dict (setAssoc [] key value)))
        key selector_type false = .ok value
      unfold SelectorManager.get_selector
      simp [lookupAssoc_setAssoc_self, setAssoc, lookupAssoc, SelectorManager.selWithFallback]
    · intro key2 type2 fb hne
      show SelectorManager.get_selector
        (setAssoc selectors selector_type (.dict (setAssoc [] key value)))
        key2 type2 fb = SelectorManager.get_selector selectors key2 type2 fb
      unfold SelectorManager.get_selector
      by_cases ht : type2 = selector_type
      · subst ht
        have hk : key2 ≠ key := by
          intro hk
          exact hne (by rw [hk])
        have hk2 : ¬ (key = key2) := fun hh => hk hh.symm
        simp [lookupAssoc_setAssoc_self, hl, setAssoc, lookupAssoc, hk2]
      · rw [lookupAssoc_setAssoc_ne selectors selector_type type2 _ ht]
  | some v =>
    cases v with
    | str s =>
      rw [hl] at h
      simp at h
    | dict group =>
      refine ⟨rfl, ?_, ?_⟩
      · show SelectorManager.get_selector
          (setAssoc selectors selector_type (.dict (setAssoc group key value)))
          key selector_type false = .ok value
        unfold SelectorManager.get_selector
        simp [lookupAssoc_setAssoc_self, SelectorManager.selWithFallback]
      · intro key2 type2 fb hne
        show SelectorManager.get_selector
          (setAssoc selectors selector_type (.dict (setAssoc group key value)))
          key2 type2 fb = SelectorManager.get_selector selectors key2 type2 fb
        unfold SelectorManager.get_selector
        by_cases ht : type2 = selector_type
        · subst ht
          have hk : key2 ≠ key := by
            intro hk
            exact hne (by rw [hk])
          simp [lookupAssoc_setAssoc_self, hl,
            lookupAssoc_setAssoc_ne group key key2 value hk]
        · rw [lookupAssoc_setAssoc_ne selectors selector_type type2 _ ht]

/-- Witness for C9 (amended) at the default configuration: update
`product_title` in `base_selectors`, read it back with fallback disabled,
and check that an unrelated pair (`email` in `checkout_selectors`)
resolves as before. -/
theorem claim_C9_witness :
    isOkE (SelectorManager.update_selector SelectorManager.get_default_config
        "product_title" "h1" "base_selectors") = true ∧
    SelectorManager.get_after_update SelectorManager.get_default_config
        "product_title" "h1" "base_selectors" "product_title" "base_selectors" false
      = .ok "h1" ∧
    SelectorManager.get_after_update SelectorManager.get_default_config
        "product_title" "h1" "base_selectors" "email" "checkout_selectors" true
      = SelectorManager.get_selector SelectorManager.get_default_config
          "email" "checkout_selectors" true :=
  ⟨(claim_C9_amended SelectorManager.get_default_config "product_title" "h1" "base_selectors" rfl).1,
   (claim_C9_amended SelectorManager.get_default_config "product_title" "h1" "base_selectors" rfl).2.1,
   (claim_C9_amended SelectorManager.get_default_config "product_title" "h1" "base_selectors" rfl).2.2
     "email" "checkout_selectors" true (by decide)⟩

/-! ## Claim C7 -/

theorem detect_element_timeout_irrel (page : DetectPage) (selectors : List String)
    (element_name : String) (t1 t2 : Nat) :
    TestIntelligence.detect_element page selectors element_name t1
      = TestIntelligence.detect_element page selectors element_name t2 := by
  induction selectors with
  | nil => rfl
  | cons sel rest ih =>
    simp only [TestIntelligence.detect_element]
    cases page.query_selector sel with
    | error e => exact ih
    | ok v =>
      cases v with
      | none => exact ih
      | some el => rfl

theorem lt_numPolls_iff (max_wait_time check_interval i : Nat)
    (hpos : 0 < check_interval) :
    i < numPolls max_wait_time check_interval ↔ i * check_interval < max_wait_time := by
  unfold numPolls
  rw [Nat.lt_iff_add_one_le, Nat.le_div_iff_mul_le hpos, add_mul, one_mul]
  omega

theorem iwGo_no_match (pageAt : Nat → DetectPage) (selectors : List String)
    (element_name : String) (max_wait_time check_interval : Nat)
    (hpos : 0 < check_interval) :
    ∀ d i elapsed, elapsed = i * check_interval →
      numPolls max_wait_time check_interval - i = d →
      i ≤ numPolls max_wait_time check_interval →
      (∀ j, i ≤ j → j < numPolls max_wait_time check_interval →
        (TestIntelligence.detect_element (pageAt j) selectors element_name check_interval).«exists»
          = false) →
      TestIntelligence.iwGo pageAt selectors element_name max_wait_time check_interval hpos elapsed i
        = TestIntelligence.detect_element (pageAt (numPolls max_wait_time check_interval))
            selectors element_name 1000 := by
  intro d
  induction d with
  | zero =>
    intro i elapsed he hd hle hall
    have hi : i = numPolls max_wait_time check_interval := by omega
    subst hi
    rw [TestIntelligence.iwGo]
    have hnot : ¬ (elapsed < max_wait_time) := by
      rw [he]
      intro hcon
      exact absurd ((lt_numPolls_iff max_wait_time check_interval _ hpos).2 hcon)
        (lt_irrefl _)
    rw [dif_neg hnot]
  | succ d ih =>
    intro i elapsed he hd hle hall
    have hiN : i < numPolls max_wait_time check_interval := by omega
    have hlt : elapsed < max_wait_time := by
      rw [he]
      exact (lt_numPolls_iff max_wait_time check_interval i hpos).1 hiN
    rw [TestIntelligence.iwGo, dif_pos hlt, if_neg]
    · exact ih (i + 1) (elapsed + check_interval)
        (by rw [he, Nat.succ_mul]) (by omega) (by omega)
        (fun j hj hjN => hall j (by omega) hjN)
    · rw [hall i (le_refl i) hiN]
      exact Bool.false_ne_true

theorem iwGo_first_match (pageAt : Nat → DetectPage) (selectors : List String)
    (element_name : String) (max_wait_time check_interval : Nat)
    (hpos : 0 < check_interval) :
    ∀ d k i elapsed, elapsed = i * check_interval → k - i = d → i ≤ k →
      k < numPolls max_wait_time check_interval →
      (∀ j, i ≤ j → j < k →
        (TestIntelligence.detect_element (pageAt j) selectors element_name check_interval).«exists»
          = false) →
      (TestIntelligence.detect_element (pageAt k) selectors element_name check_interval).«exists»
        = true →
      TestIntelligence.iwGo pageAt selectors element_name max_wait_time check_interval hpos elapsed i
        = TestIntelligence.detect_element (pageAt k) selectors element_name check_interval := by
  intro d
  induction d with
  | zero =>
    intro k i elapsed he hd hik hkN hprev hhit
    have hik2 : i = k := by omega
    subst hik2
    have hlt : elapsed < max_wait_time := by
      rw [he]
      exact (lt_numPolls_iff max_wait_time check_interval i hpos).1 hkN
    rw [TestIntelligence.iwGo, dif_pos hlt, if_pos hhit]
  | succ d ih =>
    intro k i elapsed he hd hik hkN hprev hhit
    have hiN : i < numPolls max_wait_time check_interval := by omega
    have hlt : elapsed < max_wait_time := by
      rw [he]
      exact (lt_numPolls_iff max_wait_time check_interval i hpos).1 hiN
    rw [TestIntelligence.iwGo, dif_pos hlt, if_neg]
    · exact ih k (i + 1) (elapsed + check_interval)
        (by rw [he, Nat.succ_mul]) (by omega) (by omega) hkN
        (fun j hj hjk => hprev j (by omega) hjk) hhit
    · rw [hprev i (le_refl i) (by omega)]
      exact Bool.false_ne_true

/-- Claim C7: for every positive poll interval the wait variant terminates
(it is a total function of the oracle), re-invoking `detect_element` once
per poll slot; if the `k`-th in-deadline detection is the first whose
element exists, that result is returned immediately; if no in-deadline
detection finds the element, one final detection is still performed after
the deadline (`numPolls` is the number of in-deadline polls) and that last
result is returned. -/
theorem claim_C7 (pageAt : Nat → DetectPage) (selectors : List String)
    (element_name : String) (max_wait_time check_interval : Nat)
    (hpos : 0 < check_interval) :
    ((∀ j, j < numPolls max_wait_time check_interval →
      (TestIntelligence.detect_element (pageAt j) selectors element_name check_interval).«exists»
        = false) →
      TestIntelligence.intelligent_wait_for_element pageAt selectors element_name
          max_wait_time check_interval hpos
        = TestIntelligence.detect_element (pageAt (numPolls max_wait_time check_interval))
            selectors element_name 1000) ∧
    (∀ k, k < numPolls max_wait_time check_interval →
      (∀ j, j < k →
        (TestIntelligence.detect_element (pageAt j) selectors element_name check_interval).«exists»
          = false) →
      (TestIntelligence.detect_element (pageAt k) selectors element_name check_interval).«exists»
        = true →
      TestIntelligence.intelligent_wait_for_element pageAt selectors element_name
          max_wait_time check_interval hpos
        = TestIntelligence.detect_element (pageAt k) selectors element_name check_interval) := by
  constructor
  · intro hall
    exact iwGo_no_match pageAt selectors element_name max_wait_time check_interval hpos
      (numPolls max_wait_time check_interval) 0 0 (by rw [Nat.zero_mul]) rfl
      (Nat.zero_le _) (fun j _ hjN => hall j hjN)
  · intro k hkN hprev hhit
    exact iwGo_first_match pageAt selectors element_name max_wait_time check_interval hpos
      k k 0 0 (by rw [Nat.zero_mul]) rfl (Nat.zero_le _) hkN
      (fun j _ hjk => hprev j hjk) hhit

/-- Witness for C7: on a page that immediately finds the element, the wait
loop with `max_wait = 2` and interval `1` returns the very first detection. -/
theorem claim_C7_witness :
    TestIntelligence.intelligent_wait_for_element pageAtHit ["#x"] "按钮" 2 1 Nat.one_pos
      = TestIntelligence.detect_element hitPage ["#x"] "按钮" 1 :=
  (claim_C7 pageAtHit ["#x"] "按钮" 2 1 Nat.one_pos).2 0 (by decide)
    (fun j hj => absurd hj (Nat.not_lt_zero j)) rfl

/-! ## Claim C1 -/

/-- Counterexample for C1 as stated: on the `cexEnv` quick run, steps 2 and
3 complete with terminal status `failed` (no title/price detected, no
add-to-cart button) yet no exception is raised, so `run` reports the
overall status `"passed"`. -/
theorem claim_C1_counterexample :
    (ProductTester.run cexEnv cexProduct TestMode.quick).status = "passed" ∧
    ((ProductTester.run cexEnv cexProduct TestMode.quick).steps.any
      (fun s => s.status == "failed")) = true ∧
    (ProductTester.run cexEnv cexProduct TestMode.quick).errors = [] := by
  exact ⟨rfl, by decide, rfl⟩

/-- Claim C1 (amended): the overall status recorded in the run result is
`"failed"` exactly when an uncaught exception escaped browser
initialization or the step sequence (and was recorded in the run's error
list); otherwise it is `"passed"` — the terminal statuses of the individual
steps do not feed into the overall status. -/
theorem claim_C1_amended (env : TestEnv) (product : Product) (mode : TestMode) :
    (ProductTester.run env product mode).status = "failed" ↔
    (ProductTester.run env product mode).errors ≠ [] := by
  unfold ProductTester.run
  cases env.init_browser with
  | error e => simp
  | ok u =>
    cases mode with
    | quick =>
      unfold ProductTester.run_quick_test
      cases env.navigate with
      | error e => simp [ProductTester.quick_pending]
      | ok u2 => simp [ProductTester.quick_pending]
    | full =>
      unfold ProductTester.run_full_test
      cases env.navigate with
      | error e => simp [ProductTester.full_pending]
      | ok u2 => simp [ProductTester.full_pending]
